import Mathlib

/-!
Verification of the `river-extra` repository's single-best hyperparameter
tuner (`river_extra/model_selection/sspt.py`, class `SSPT`) and the random
tree splitter (`river_extra/tree/splitter/random_splitter.py`).

Conventions of the shallow embedding:
* Python numbers (ints and floats) are modelled as exact rationals `ℚ`;
  real-valued formulas involving square roots are stated over `ℝ` in the
  theorems while the executable definitions compare squared quantities.
* A raised Python exception is modelled as `Except.error` with a string
  naming the exception.
* `params_range` (a Python dict `name -> (type, (lo, hi))`) is modelled as
  an association list; a `Config` (dict `name -> value`) is modelled as a
  total function from names to values, read only at declared names.
* Following the spec's collaborator contract (`current_config() -> Config`),
  a model's parameter dictionary is identified with its `Config` over the
  declared parameter names.
-/

namespace RiverExtra

/-- Kind of a searched hyperparameter: `int` or `float` in `params_range`. -/
inductive PType where
  | int : PType
  | float : PType
deriving DecidableEq, Repr, BEq

/-- Inclusive range `(lo, hi)` of one searched hyperparameter. -/
structure PRange where
  lo : ℚ
  hi : ℚ
deriving DecidableEq, Repr

/-- `params_range`: ordered mapping from parameter name to kind and range. -/
abbrev ParamsRange := List (String × PType × PRange)

/-- A hyperparameter configuration, read at the declared parameter names. -/
abbrev Config := String → ℚ

/-- Python's `round(x, 0)`: round to the nearest integer, ties to the even
integer (banker's rounding). -/
def pyRound (q : ℚ) : ℚ :=
  if q - (Int.floor q : ℚ) < 1/2 then ((Int.floor q : ℤ) : ℚ)
  else if 1/2 < q - (Int.floor q : ℚ) then ((Int.floor q + 1 : ℤ) : ℚ)
  else if Int.floor q % 2 = 0 then ((Int.floor q : ℤ) : ℚ)
  else ((Int.floor q + 1 : ℤ) : ℚ)

/-- The range sanity checks of `apply_operator` (sspt.py lines 106-110):
raise `new_val` to `lo` when below, lower it to `hi` when above. -/
def clampVal (rg : PRange) (v : ℚ) : ℚ :=
  if rg.hi < (if v < rg.lo then rg.lo else v) then rg.hi
  else (if v < rg.lo then rg.lo else v)

/-- The per-parameter body of `apply_operator` (sspt.py lines 106-112):
clip `new_val` to `[lo, hi]`, then `round(new_val, 0)` for `int`-kind
parameters.  Clamping happens before rounding, as in the source. -/
def clampRound (ty : PType) (rg : PRange) (v : ℚ) : ℚ :=
  match ty with
  | PType.int => pyRound (clampVal rg v)
  | PType.float => clampVal rg v

/-- The `new_config` computed by `apply_operator` (sspt.py lines 99-112):
for every declared parameter, apply `func` to the two operands' values and
clamp/round.  Names absent from `params_range` are not present in the
source's `new_config` dict; the embedding returns `0` there and no theorem
reads such a name. -/
def deriveConfig (pr : ParamsRange) (op : ℚ → ℚ → ℚ) (c1 c2 : Config) : Config :=
  fun p =>
    match pr.lookup p with
    | some (ty, rg) => clampRound ty rg (op (c1 p) (c2 p))
    | none => 0

/-- The five derived configurations of one `_nelder_mead_expansion` call. -/
structure ExpandedCfgs where
  midpoint : Config
  reflection : Config
  expansion : Config
  shrink : Config
  contraction : Config

/-- The configurations derived by `_nelder_mead_expansion`
(sspt.py lines 119-141), in the source's dependency order:
midpoint from best and good, reflection from midpoint and worst,
expansion from reflection and midpoint, shrink from best and worst,
contraction from midpoint and worst. -/
def expandedConfigs (pr : ParamsRange) (cb cg cw : Config) : ExpandedCfgs :=
  let avg : ℚ → ℚ → ℚ := fun h1 h2 => (h1 + h2) / 2
  let refl : ℚ → ℚ → ℚ := fun h1 h2 => 2 * h1 - h2
  let mid := deriveConfig pr avg cb cg
  let rfc := deriveConfig pr refl mid cw
  let exp := deriveConfig pr refl rfc mid
  let shr := deriveConfig pr avg cb cw
  let con := deriveConfig pr avg mid cw
  ⟨mid, rfc, exp, shr, con⟩

/-- River metrics' `is_better_than`, direction-aware: with a bigger-is-better
metric `a` beats `b` iff `b < a`, otherwise iff `a < b`.  Metric values are
modelled by their current score in `ℚ`. -/
def isBetter (bib : Bool) (a b : ℚ) : Bool :=
  if bib then decide (b < a) else decide (a < b)

/-- The simplex: slot 0 is `best`, slot 1 is `good`, slot 2 is `worst`. -/
structure Simplex (V : Type) where
  best : V
  good : V
  worst : V
deriving DecidableEq, Repr

/-- The transient expanded set keyed by the five candidate roles. -/
structure Expanded (V : Type) where
  midpoint : V
  reflection : V
  expansion : V
  shrink : V
  contraction : V
deriving DecidableEq, Repr

/-- `_nelder_mead_operators` (sspt.py lines 143-171): the fixed decision
procedure replacing simplex slots from the expanded candidates.  It only
reads the variants' metric values (through `metric`) and moves whole
variants, so it is stated for an arbitrary variant type `V`. -/
def nelderMeadOperators {V : Type} (bib : Bool) (metric : V → ℚ)
    (s : Simplex V) (e : Expanded V) : Simplex V :=
  let b := metric s.best
  let g := metric s.good
  let w := metric s.worst
  let r := metric e.reflection
  if isBetter bib r g then
    if isBetter bib b r then
      { s with worst := e.reflection }
    else if isBetter bib (metric e.expansion) b then
      { s with worst := e.expansion }
    else
      { s with worst := e.reflection }
  else
    if isBetter bib r w then
      { s with worst := e.reflection }
    else if isBetter bib (metric e.contraction) w then
      { s with worst := e.contraction }
    else
      let s1 := if isBetter bib (metric e.shrink) w then { s with worst := e.shrink } else s
      if isBetter bib (metric e.midpoint) g then { s1 with good := e.midpoint } else s1

/-! ### Convergence monitor (`_models_converged`, sspt.py lines 173-204) -/

/-- Normalization of one parameter value into the unit interval
(sspt.py lines 183-186): `(value - lo) / (hi - lo)`.  Only evaluated when
the scale is nonzero; `modelsConverged` raises otherwise. -/
def normVal (rg : PRange) (v : ℚ) : ℚ :=
  (v - rg.lo) / (rg.hi - rg.lo)

/-- `True` iff some declared parameter has a zero-width range, in which case
the normalization loop of `_models_converged` divides by zero. -/
def hasZeroWidth (pr : ParamsRange) : Bool :=
  pr.any fun p => p.2.2.hi == p.2.2.lo

/-- `utils.math.minkowski_distance(·, ·, p=2)` on the normalized
configurations, squared: the sum over the declared parameters of the squared
differences of the normalized values.  Per the spec's collaborator contract
the external call computes the Euclidean distance, i.e. the square root of
this quantity; the executable embedding keeps the square and the theorems
relate it to the square-root formula over `ℝ`. -/
def distSq (pr : ParamsRange) (c1 c2 : Config) : ℚ :=
  (pr.map fun p => (normVal p.2.2 (c1 p.1) - normVal p.2.2 (c2 p.1)) ^ 2).sum

/-- `max_dist` squared (sspt.py lines 188-194): the maximum of the three
pairwise squared distances between the normalized best, good and worst
configurations. -/
def maxDistSq (pr : ParamsRange) (cb cg cw : Config) : ℚ :=
  max (max (distSq pr cb cg) (distSq pr cb cw)) (distSq pr cg cw)

/-- `_models_converged` (sspt.py lines 173-204) as a function of the three
simplex configurations.  A zero-width parameter range raises
`ZeroDivisionError` in the normalization loop.  Otherwise the source tests
`max_dist * sqrt(ndim / (2*(ndim+1))) < convergence_sphere`; since both
sides of that inequality are compared with nonnegative square roots, the
embedding decides the equivalent square-free inequality
`0 < cs ∧ max_dist² * ndim < cs² * (2*(ndim+1))` (the equivalence is proved
in `models_converged_char`). -/
def modelsConverged (pr : ParamsRange) (cs : ℚ) (cb cg cw : Config) :
    Except String Bool :=
  if hasZeroWidth pr then Except.error "ZeroDivisionError"
  else
    let m := maxDistSq pr cb cg cw
    let n : ℚ := pr.length
    Except.ok (decide (0 < cs ∧ m * n < cs ^ 2 * (2 * (n + 1))))

/-! ### Constructor (`SSPT.__init__`, sspt.py lines 17-52) -/

/-- The observable outcome of `SSPT.__init__`, with the assignments in
source order: the `start` value is validated first (lines 35-38, raising
`ValueError`), then `_create_simplex` runs at line 45 and calls
`_random_config`, which reads `self._rng` (lines 59 and 61); `self._rng` is
only assigned at line 52, after `_create_simplex` has returned, so the first
parameter of `int` or `float` kind raises `AttributeError`.  Parameters of
any other kind are silently skipped by `_random_config`. -/
def ssptInit (pr : ParamsRange) (start : String) : Except String Unit :=
  if start ≠ "random" ∧ start ≠ "warm" then Except.error "ValueError"
  else if pr.any (fun p => p.2.1 == PType.int || p.2.1 == PType.float) then
    Except.error "AttributeError: _rng"
  else Except.ok ()

/-! ### Model wrappers and the expansion engine -/

/-- A model replica: its hyperparameter configuration (`_get_params()`,
identified with the `Config` over the declared names per the spec's
collaborator contract) and an abstract token for its fitted state
(`0` on a fresh clone). -/
structure MModel where
  cfg : Config
  fit : ℕ

/-- `ModelWrapper`: a namedtuple pairing a model replica with its own
metric instance (the metric's current score, a fresh clone starting at the
prototype's initial score). -/
structure MVar where
  model : MModel
  metric : ℚ

/-- `apply_operator` (sspt.py lines 98-117): computes the clamped and
rounded `new_config` from the two operand wrappers, then evaluates
`self._simplex[0].mutate(new_config)`.  `ModelWrapper` is a namedtuple with
fields `model` and `metric` only, so the attribute lookup fails; the call
raises `AttributeError` and no wrapper is ever produced. -/
def applyOperator (pr : ParamsRange) (op : ℚ → ℚ → ℚ) (m1 m2 : MVar) :
    Except String MVar :=
  let newConfig := deriveConfig pr op m1.model.cfg m2.model.cfg
  let _ := newConfig
  Except.error "AttributeError: mutate"

/-- `_nelder_mead_expansion` (sspt.py lines 95-141): builds the expanded
set through five `apply_operator` calls, the first of which (midpoint)
already raises `AttributeError` (see `applyOperator`). -/
def nelderMeadExpansion (pr : ParamsRange) (s : Simplex MVar) :
    Except String (Expanded MVar) := do
  let avg : ℚ → ℚ → ℚ := fun h1 h2 => (h1 + h2) / 2
  let refl : ℚ → ℚ → ℚ := fun h1 h2 => 2 * h1 - h2
  let mid ← applyOperator pr avg s.best s.good
  let rfc ← applyOperator pr refl mid s.worst
  let exp ← applyOperator pr refl rfc mid
  let shr ← applyOperator pr avg s.best s.worst
  let con ← applyOperator pr avg mid s.worst
  return ⟨mid, rfc, exp, shr, con⟩

/-! ### Sorting (`_sort_simplex`, sspt.py lines 88-93) -/

/-- Stable insertion into a sorted list: `x` is placed before the first
element that does not strictly precede it under `ltB` on the metric key,
matching the stability guarantee of Python's `list.sort`. -/
def insSorted {V : Type} (ltB : ℚ → ℚ → Bool) (metric : V → ℚ) (x : V) :
    List V → List V
  | [] => [x]
  | y :: ys =>
    if ltB (metric y) (metric x) then y :: insSorted ltB metric x ys
    else x :: y :: ys

/-- `_sort_simplex`: stable sort of the three wrappers by current metric
value, descending when the metric is bigger-is-better (`reverse=True`),
ascending otherwise. -/
def sortSimplex {V : Type} (bib : Bool) (metric : V → ℚ) (s : Simplex V) :
    Simplex V :=
  let ltB : ℚ → ℚ → Bool :=
    if bib then fun a b => decide (b < a) else fun a b => decide (a < b)
  match insSorted ltB metric s.best (insSorted ltB metric s.good [s.worst]) with
  | [a, b, c] => ⟨a, b, c⟩
  | _ => s

/-! ### The controller state machine (`learn_one` and its two branches)

The controller's collaborators (the wrapped models' predictions, the
metric updates, the drift detector and the seeded random source) are
external; each `learn_one` call's collaborator outcomes are supplied by a
`CallEnv` record, and the random source is a stream of configurations with
a position counter.  The control flow, counters, slot replacements, state
transitions and the raising `_nelder_mead_expansion` call are embedded
faithfully from the source.  A raising call is modelled as
`Except.error (message, state)`: in Python the exception propagates while
the controller object survives with every mutation made before the raise
(the counter increment and the simplex wrapper updates), and a caller that
catches the exception observes exactly that carried state. -/

/-- Fixed controller configuration: `params_range`, `convergence_sphere`,
`grace_period`, the metric direction, and whether `start == "warm"`;
`m0` is the initial score of a freshly cloned metric. -/
structure Params where
  pr : ParamsRange
  cs : ℚ
  gracePeriod : ℕ
  bib : Bool
  warm : Bool
  m0 : ℚ

/-- The controller's seeded random source, abstracted as a stream of
configuration draws (`_random_config`) together with a position. -/
abbrev RngS := (ℕ → Config) × ℕ

/-- One `_random_config()` draw from the stream. -/
def randCfg (rng : RngS) : Config × RngS :=
  (rng.1 rng.2, (rng.1, rng.2 + 1))

/-- `_create_simplex(model)` (sspt.py lines 65-86): slot 0 (best) and
slot 2 (worst) are fresh clones of the base model under independent random
draws, in that order; slot 1 (good) is a clone under the seed model's
current parameters when `start == "warm"` and under a third random draw
otherwise.  Every slot's model is a fresh clone (`fit = 0`) and every
slot's metric is a fresh clone of the prototype. -/
def createSimplex (P : Params) (seedCfg : Config) (rng : RngS) :
    Simplex MVar × RngS :=
  let d1 := randCfg rng
  let d2 := randCfg d1.2
  let dg := if P.warm then (seedCfg, d2.2) else randCfg d2.2
  (⟨⟨⟨d1.1, 0⟩, P.m0⟩, ⟨⟨dg.1, 0⟩, P.m0⟩, ⟨⟨d2.1, 0⟩, P.m0⟩⟩, dg.2)

/-- Collaborator outcomes for one `learn_one` call: the effect of
predict/metric-update/learn on each simplex wrapper (`updS`) and each
expanded wrapper (`updE`), the drift detector's `drift_detected` flag
after its update (`drift`), and the effect of `learn_one` on the frozen
best model (`learnBest`). -/
structure CallEnv where
  updS : MVar → MVar
  updE : MVar → MVar
  drift : Bool
  learnBest : MModel → MModel

/-- The controller's mutable state: the simplex, the optional expanded
set, the sample counter `_n`, the `_converged` flag, the frozen
`_best_model`, and the random source.  `passes` counts executed
`_nelder_mead_operators` passes (instrumentation only: no source field). -/
structure CtrlState where
  simplex : Simplex MVar
  expanded : Option (Expanded MVar)
  n : ℕ
  converged : Bool
  best : Option MModel
  rng : RngS
  passes : ℕ

/-- Map a wrapper update over the three simplex slots (the per-sample
predict/metric-update/learn loop of sspt.py lines 228-231). -/
def mapSimplex (f : MVar → MVar) (s : Simplex MVar) : Simplex MVar :=
  ⟨f s.best, f s.good, f s.worst⟩

/-- Map a wrapper update over the five expanded slots (sspt.py
lines 236-239). -/
def mapExpanded (f : MVar → MVar) (e : Expanded MVar) : Expanded MVar :=
  ⟨f e.midpoint, f e.reflection, f e.expansion, f e.shrink, f e.contraction⟩

/-- `_learn_converged` (sspt.py lines 210-225), acting on the state after
the counter increment: the frozen best model predicts, the drift detector
is updated; on `drift_detected` the controller leaves the converged state,
re-creates the simplex seeded with the frozen best model's current
parameters, and clears the frozen best model, returning before the best
model learns; otherwise only the frozen best model learns. -/
def learnConverged (P : Params) (env : CallEnv) (st : CtrlState) :
    Except (String × CtrlState) CtrlState :=
  match st.best with
  | none => Except.error ("AttributeError: NoneType", st)
  | some bm =>
    if env.drift then
      let p := createSimplex P bm.cfg st.rng
      Except.ok { st with converged := false, simplex := p.1, best := none, rng := p.2 }
    else
      Except.ok { st with best := some (env.learnBest bm) }

/-- The wrapper's metric score, the sort and selection key. -/
def mvMetric (v : MVar) : ℚ := v.metric

/-- The tail of `_learn_not_converged` once an expanded set exists
(sspt.py lines 236-253), acting on the state after the counter increment
with the simplex wrappers already updated to `sx1`: update the five
expanded wrappers; when the counter equals `grace_period`, reset it to 0,
sort the simplex, run `_nelder_mead_operators` and discard the expanded
set; finally evaluate `_models_converged` on the current simplex
configurations (a raise there leaves the state as mutated so far) and,
when it holds, set `_converged` and freeze the best slot's model. -/
def afterExpansion (P : Params) (env : CallEnv) (st : CtrlState)
    (sx1 : Simplex MVar) (ex0 : Expanded MVar) :
    Except (String × CtrlState) CtrlState :=
  let ex1 := mapExpanded env.updE ex0
  let st1 :=
    if st.n = P.gracePeriod then
      { st with
          n := 0
          simplex := nelderMeadOperators P.bib mvMetric
            (sortSimplex P.bib mvMetric sx1) ex1
          expanded := none
          passes := st.passes + 1 }
    else
      { st with simplex := sx1, expanded := some ex1 }
  match modelsConverged P.pr P.cs st1.simplex.best.model.cfg
      st1.simplex.good.model.cfg st1.simplex.worst.model.cfg with
  | Except.error e => Except.error (e, st1)
  | Except.ok c =>
    if c then
      Except.ok { st1 with converged := true, best := some st1.simplex.best.model }
    else
      Except.ok st1

/-- `_learn_not_converged` (sspt.py lines 227-253), acting on the state
after the counter increment: update the three simplex wrappers (lines
228-231); when no expanded set exists, line 234 calls
`_nelder_mead_expansion()`, which raises `AttributeError` at
`ModelWrapper.mutate` (see `nelderMeadExpansion`) — the exception
propagates with the counter already incremented and the simplex wrappers
already updated; otherwise the call proceeds with the existing expanded
set. -/
def learnNotConverged (P : Params) (env : CallEnv) (st : CtrlState) :
    Except (String × CtrlState) CtrlState :=
  let sx1 := mapSimplex env.updS st.simplex
  match st.expanded with
  | none =>
    match nelderMeadExpansion P.pr sx1 with
    | Except.error e => Except.error (e, { st with simplex := sx1 })
    | Except.ok ex0 => afterExpansion P env st sx1 ex0
  | some ex0 => afterExpansion P env st sx1 ex0

/-- `learn_one` (sspt.py lines 255-261): increment the sample counter,
then dispatch on the `converged` flag. -/
def learnOne (P : Params) (env : CallEnv) (st : CtrlState) :
    Except (String × CtrlState) CtrlState :=
  let st1 := { st with n := st.n + 1 }
  if st1.converged then learnConverged P env st1
  else learnNotConverged P env st1

/-- The controller state a caller observes after one `learn_one` call:
when the call raises, the Python object survives with every mutation made
before the raise, so a caller that catches the exception sees the carried
state. -/
def stateAfter (P : Params) (env : CallEnv) (st : CtrlState) : CtrlState :=
  match learnOne P env st with
  | Except.ok st1 => st1
  | Except.error (_, st1) => st1

/-- Repeated `learn_one` calls by a caller that catches any raised
exception and keeps using the same controller object. -/
def runSurvive (P : Params) : List CallEnv → CtrlState → CtrlState
  | [], st => st
  | env :: envs, st => runSurvive P envs (stateAfter P env st)

/-! ### RandomSplitter (`random_splitter.py`) -/

/-- State of a `RandomSplitter`: `seed`, `buffer_size`, the optional split
`threshold`, the accumulated split `stats` (a `Counter` pair for
`ClassRandomSplitter`, a `Var` pair for `RegRandomSplitter`; the subclass
state is the type parameter `S`), the private random generator state `R`,
and the sample buffer (a list of `(att_val, target_val, sample_weight)`
triples, set to `None` once the threshold is fixed). -/
structure RSplitter (S R : Type) where
  seed : ℕ
  bufferSize : ℕ
  threshold : Option ℚ
  stats : S
  rng : R
  buffer : Option (List (ℚ × ℚ × ℚ))

/-- `RandomSplitter.__deepcopy__` (random_splitter.py lines 23-29): draw a
fresh seed from the original's generator (`randint`, advancing the
original's generator state), then build `self.__class__(seed=seed,
buffer_size=self.buffer_size)`; the subclass `__init__` gives the copy a
`None` threshold, fresh statistics (`freshStats`), a generator seeded from
the new seed (`initRng`), and an empty buffer.  Returns the copy together
with the original after its generator advanced. -/
def deepcopySplitter {S R : Type} (randint : R → ℕ × R) (initRng : ℕ → R)
    (freshStats : S) (sp : RSplitter S R) : RSplitter S R × RSplitter S R :=
  let d := randint sp.rng
  (⟨d.1, sp.bufferSize, none, freshStats, initRng d.1, some []⟩,
   { sp with rng := d.2 })

/-! ### Concrete instances used by witnesses and counterexamples -/

/-- Pointwise bounds and integrality of one configuration entry. -/
def cfgOkAt (ty : PType) (rg : PRange) (c : Config) (name : String) : Prop :=
  rg.lo ≤ c name ∧ c name ≤ rg.hi ∧ (ty = PType.int → ∃ z : ℤ, c name = (z : ℚ))

/-- The constant configuration with every parameter at `1/2`. -/
def cfgHalf : Config := fun _ => 1/2

/-- Scenario configuration normalizing to `(0.51, 0.49)` on the unit square. -/
def cfgPt2 : Config := fun p => if p = "a" then 51/100 else 49/100

/-- Scenario configuration normalizing to `(0.49, 0.51)` on the unit square. -/
def cfgPt3 : Config := fun p => if p = "a" then 49/100 else 51/100

/-- The two-parameter unit-square search space of the convergence scenario. -/
def prUnit2 : ParamsRange :=
  [("a", PType.float, ⟨0, 1⟩), ("b", PType.float, ⟨0, 1⟩)]

/-- A model wrapper whose configuration is constant `1/2` with a fresh
model and a zero metric. -/
def mvHalf : MVar := ⟨⟨cfgHalf, 0⟩, 0⟩

/-- A random stream that always draws the constant `1/2` configuration. -/
def rngHalf : RngS := (fun _ => cfgHalf, 0)

/-- One-parameter unit-interval search space. -/
def prUnit1 : ParamsRange := [("x", PType.float, ⟨0, 1⟩)]

/-- Controller configuration for the grace-period evaluation: one
parameter, `grace_period = 1`. -/
def pGrace : Params := ⟨prUnit1, 0, 1, true, true, 0⟩

/-- Collaborator outcomes leaving every wrapper unchanged and reporting no
drift. -/
def envId : CallEnv := ⟨id, id, false, id⟩

/-- Collaborator outcomes as `envId` but with `drift_detected` reported. -/
def envDrift : CallEnv := ⟨id, id, true, id⟩

/-- A fresh exploring controller state over the constant simplex. -/
def stFresh : CtrlState :=
  ⟨⟨mvHalf, mvHalf, mvHalf⟩, none, 0, false, none, rngHalf, 0⟩

/-- Controller configuration for the counter-overflow run: one parameter,
`grace_period = 2`. -/
def pOvershoot : Params := ⟨prUnit1, 10, 2, true, true, 0⟩

/-- A converged controller state used by the drift-transition witness. -/
def stConv : CtrlState :=
  ⟨⟨mvHalf, mvHalf, mvHalf⟩, none, 7, true, some mvHalf.model, rngHalf, 0⟩

/-! ## Theorems -/

/-- C1: `_nelder_mead_operators` replaces simplex slots exactly according
to the fixed decision table on the ranked metrics b, g, w and the expanded
metrics r, e, c, s, m: if r beats g and b beats r, worst ← reflection; if
r beats g, b does not beat r and e beats b, worst ← expansion; if r beats
g, b does not beat r and e does not beat b, worst ← reflection; if r does
not beat g and r beats w, worst ← reflection; if r does not beat g, r does
not beat w and c beats w, worst ← contraction; otherwise worst ← shrink
exactly when s beats w and, independently, good ← midpoint exactly when m
beats g.  In every case no other slot changes. -/
theorem selection_policy_decision_table {V : Type} (bib : Bool)
    (metric : V → ℚ) (s : Simplex V) (e : Expanded V) :
    (isBetter bib (metric e.reflection) (metric s.good) = true →
      isBetter bib (metric s.best) (metric e.reflection) = true →
      nelderMeadOperators bib metric s e = ⟨s.best, s.good, e.reflection⟩)
  ∧ (isBetter bib (metric e.reflection) (metric s.good) = true →
      isBetter bib (metric s.best) (metric e.reflection) = false →
      isBetter bib (metric e.expansion) (metric s.best) = true →
      nelderMeadOperators bib metric s e = ⟨s.best, s.good, e.expansion⟩)
  ∧ (isBetter bib (metric e.reflection) (metric s.good) = true →
      isBetter bib (metric s.best) (metric e.reflection) = false →
      isBetter bib (metric e.expansion) (metric s.best) = false →
      nelderMeadOperators bib metric s e = ⟨s.best, s.good, e.reflection⟩)
  ∧ (isBetter bib (metric e.reflection) (metric s.good) = false →
      isBetter bib (metric e.reflection) (metric s.worst) = true →
      nelderMeadOperators bib metric s e = ⟨s.best, s.good, e.reflection⟩)
  ∧ (isBetter bib (metric e.reflection) (metric s.good) = false →
      isBetter bib (metric e.reflection) (metric s.worst) = false →
      isBetter bib (metric e.contraction) (metric s.worst) = true →
      nelderMeadOperators bib metric s e = ⟨s.best, s.good, e.contraction⟩)
  ∧ (isBetter bib (metric e.reflection) (metric s.good) = false →
      isBetter bib (metric e.reflection) (metric s.worst) = false →
      isBetter bib (metric e.contraction) (metric s.worst) = false →
      nelderMeadOperators bib metric s e =
        ⟨s.best,
         (if isBetter bib (metric e.midpoint) (metric s.good) then e.midpoint
          else s.good),
         (if isBetter bib (metric e.shrink) (metric s.worst) then e.shrink
          else s.worst)⟩) := by
  refine ⟨?_, ?_, ?_, ?_, ?_, ?_⟩ <;> intros h1 h2 <;>
    first
    | (intro h3
       cases hm : isBetter bib (metric e.midpoint) (metric s.good) <;>
       cases hs : isBetter bib (metric e.shrink) (metric s.worst) <;>
       simp [nelderMeadOperators, h1, h2, h3, hm, hs])
    | simp [nelderMeadOperators, h1, h2]

/-- Witness for C1: a concrete simplex and expanded set where the
reflection beats the good metric and the best beats the reflection; the
worst slot becomes the reflection variant and the other slots are
unchanged. -/
theorem selection_policy_decision_table_witness :
    isBetter true ((fun v : ℕ => (v : ℚ)) 7) ((fun v : ℕ => (v : ℚ)) 5) = true ∧
    isBetter true ((fun v : ℕ => (v : ℚ)) 10) ((fun v : ℕ => (v : ℚ)) 7) = true ∧
    nelderMeadOperators true (fun v : ℕ => (v : ℚ))
      ⟨10, 5, 1⟩ ⟨2, 7, 3, 4, 6⟩ = ⟨10, 5, 7⟩ :=
  ⟨by decide, by decide,
   (selection_policy_decision_table true (fun v : ℕ => (v : ℚ))
     ⟨10, 5, 1⟩ ⟨2, 7, 3, 4, 6⟩).1 (by decide) (by decide)⟩

/-- C2 (code bug): constructing an `SSPT` with a valid `start` and a
non-empty `params_range` of integer/real parameters does not succeed:
`__init__` calls `_create_simplex` (line 45), which draws random
configurations through `self._rng`, but `self._rng` is only assigned at
line 52, so construction raises `AttributeError` instead of building the
simplex. -/
theorem sspt_init_attribute_error :
    ssptInit [("x", PType.int, ⟨1, 10⟩)] "warm" =
      Except.error "AttributeError: _rng" := rfl

/-- C3 (code bug): a derive step of the expansion engine does not produce a
wrapper holding a reconfigured clone of the best variant's model:
`apply_operator` evaluates `self._simplex[0].mutate(new_config)` on the
`ModelWrapper` namedtuple, which has no `mutate` attribute, so
`_nelder_mead_expansion` raises `AttributeError` on its first derive step. -/
theorem expansion_raises_attribute_error :
    nelderMeadExpansion [("x", PType.int, ⟨1, 10⟩)]
      ⟨⟨⟨fun _ => 5, 0⟩, 0⟩, ⟨⟨fun _ => 3, 0⟩, 0⟩, ⟨⟨fun _ => 9, 0⟩, 0⟩⟩ =
      Except.error "AttributeError: mutate" := rfl

/-- C10: `__deepcopy__` of a `RandomSplitter` (in any state, for any
subclass statistics type) returns a fresh splitter with the same buffer
size, a seed newly drawn from the original's generator, a `None` threshold,
an empty buffer, fresh subclass statistics and a generator seeded from the
new seed; the original's threshold, statistics and buffer are unchanged. -/
theorem random_splitter_deepcopy {S R : Type} (randint : R → ℕ × R)
    (initRng : ℕ → R) (freshStats : S) (sp : RSplitter S R) :
    (deepcopySplitter randint initRng freshStats sp).1.bufferSize = sp.bufferSize ∧
    (deepcopySplitter randint initRng freshStats sp).1.seed = (randint sp.rng).1 ∧
    (deepcopySplitter randint initRng freshStats sp).1.threshold = none ∧
    (deepcopySplitter randint initRng freshStats sp).1.buffer = some [] ∧
    (deepcopySplitter randint initRng freshStats sp).1.stats = freshStats ∧
    (deepcopySplitter randint initRng freshStats sp).1.rng = initRng (randint sp.rng).1 ∧
    (deepcopySplitter randint initRng freshStats sp).2.threshold = sp.threshold ∧
    (deepcopySplitter randint initRng freshStats sp).2.stats = sp.stats ∧
    (deepcopySplitter randint initRng freshStats sp).2.buffer = sp.buffer ∧
    (deepcopySplitter randint initRng freshStats sp).2.bufferSize = sp.bufferSize ∧
    (deepcopySplitter randint initRng freshStats sp).2.seed = sp.seed ∧
    (deepcopySplitter randint initRng freshStats sp).2.rng = (randint sp.rng).2 :=
  ⟨rfl, rfl, rfl, rfl, rfl, rfl, rfl, rfl, rfl, rfl, rfl, rfl⟩

/-- `pyRound` always returns an integer value. -/
lemma pyRound_isInt (q : ℚ) : ∃ z : ℤ, pyRound q = (z : ℚ) := by
  unfold pyRound
  split_ifs
  · exact ⟨Int.floor q, rfl⟩
  · exact ⟨Int.floor q + 1, rfl⟩
  · exact ⟨Int.floor q, rfl⟩
  · exact ⟨Int.floor q + 1, rfl⟩

/-- Rounding a value lying between two integers stays between them. -/
lemma pyRound_bounds (a b : ℤ) (q : ℚ) (h1 : (a : ℚ) ≤ q) (h2 : q ≤ (b : ℚ)) :
    (a : ℚ) ≤ pyRound q ∧ pyRound q ≤ (b : ℚ) := by
  have hfa : a ≤ Int.floor q := Int.le_floor.mpr h1
  have hfb : Int.floor q ≤ b := by
    have := Int.floor_le_floor h2
    simpa using this
  have hfl : (Int.floor q : ℚ) ≤ q := Int.floor_le q
  have hsucc : ¬ (q - (Int.floor q : ℚ) < 1/2) → Int.floor q + 1 ≤ b := by
    intro hge
    rcases lt_or_eq_of_le hfb with hlt | heq
    · omega
    · exfalso
      apply hge
      have hqb : q ≤ (Int.floor q : ℚ) := by rw [heq]; exact_mod_cast h2
      linarith
  have hfa' : (a : ℚ) ≤ (Int.floor q : ℚ) := by exact_mod_cast hfa
  have hfb' : (Int.floor q : ℚ) ≤ (b : ℚ) := by exact_mod_cast hfb
  unfold pyRound
  split_ifs with hg1 hg2 hg3
  · exact ⟨hfa', hfb'⟩
  · have hs : Int.floor q + 1 ≤ b := hsucc hg1
    exact ⟨by push_cast; linarith, by exact_mod_cast hs⟩
  · exact ⟨hfa', hfb'⟩
  · have hs : Int.floor q + 1 ≤ b := hsucc hg1
    exact ⟨by push_cast; linarith, by exact_mod_cast hs⟩

/-- The clamped value lies in the (well-formed) declared range. -/
lemma clampVal_bounds (rg : PRange) (v : ℚ) (hle : rg.lo ≤ rg.hi) :
    rg.lo ≤ clampVal rg v ∧ clampVal rg v ≤ rg.hi := by
  unfold clampVal
  split_ifs <;> constructor <;> linarith

/-- The clamped-and-rounded value of `apply_operator` lies in the declared
inclusive range and is integral for integer-kind parameters (whose bounds
are integers). -/
lemma clampRound_ok (ty : PType) (rg : PRange) (v : ℚ) (hle : rg.lo ≤ rg.hi)
    (hint : ty = PType.int → (∃ a : ℤ, rg.lo = (a : ℚ)) ∧ (∃ b : ℤ, rg.hi = (b : ℚ))) :
    rg.lo ≤ clampRound ty rg v ∧ clampRound ty rg v ≤ rg.hi ∧
      (ty = PType.int → ∃ z : ℤ, clampRound ty rg v = (z : ℚ)) := by
  have hclamp := clampVal_bounds rg v hle
  cases ty with
  | float =>
    refine ⟨hclamp.1, hclamp.2, ?_⟩
    intro h
    exact absurd h (by simp)
  | int =>
    obtain ⟨⟨a, ha⟩, ⟨b, hb⟩⟩ := hint rfl
    have hb1 : (a : ℚ) ≤ clampVal rg v := by rw [← ha]; exact hclamp.1
    have hb2 : clampVal rg v ≤ (b : ℚ) := by rw [← hb]; exact hclamp.2
    have hr := pyRound_bounds a b _ hb1 hb2
    refine ⟨?_, ?_, fun _ => pyRound_isInt _⟩
    · show rg.lo ≤ pyRound (clampVal rg v)
      rw [ha]; exact hr.1
    · show pyRound (clampVal rg v) ≤ rg.hi
      rw [hb]; exact hr.2

/-- `deriveConfig` reads the looked-up kind and range at a declared name. -/
lemma deriveConfig_at (pr : ParamsRange) (op : ℚ → ℚ → ℚ) (c1 c2 : Config)
    (name : String) (ty : PType) (rg : PRange)
    (hl : pr.lookup name = some (ty, rg)) :
    deriveConfig pr op c1 c2 name = clampRound ty rg (op (c1 name) (c2 name)) := by
  unfold deriveConfig
  rw [hl]

/-- Every configuration a derive step produces is in range at every
declared parameter, integrally so for integer kinds. -/
lemma deriveConfig_ok (pr : ParamsRange) (op : ℚ → ℚ → ℚ) (c1 c2 : Config)
    (name : String) (ty : PType) (rg : PRange)
    (hl : pr.lookup name = some (ty, rg)) (hle : rg.lo ≤ rg.hi)
    (hint : ty = PType.int → (∃ a : ℤ, rg.lo = (a : ℚ)) ∧ (∃ b : ℤ, rg.hi = (b : ℚ))) :
    cfgOkAt ty rg (deriveConfig pr op c1 c2) name := by
  unfold cfgOkAt
  rw [deriveConfig_at pr op c1 c2 name ty rg hl]
  exact clampRound_ok ty rg _ hle hint

/-- C4: every parameter of every configuration produced by the five derive
steps of `_nelder_mead_expansion` (midpoint, reflection, expansion, shrink,
contraction, computed in the source's dependency order) lies within its
declared inclusive range, and integer-kind parameters (with integer bounds)
hold integral values; clamping to the range happens before rounding
(see `clampRound`). -/
theorem expansion_configs_in_range (pr : ParamsRange) (cb cg cw : Config)
    (name : String) (ty : PType) (rg : PRange)
    (hl : pr.lookup name = some (ty, rg)) (hle : rg.lo ≤ rg.hi)
    (hint : ty = PType.int → (∃ a : ℤ, rg.lo = (a : ℚ)) ∧ (∃ b : ℤ, rg.hi = (b : ℚ))) :
    cfgOkAt ty rg (expandedConfigs pr cb cg cw).midpoint name ∧
    cfgOkAt ty rg (expandedConfigs pr cb cg cw).reflection name ∧
    cfgOkAt ty rg (expandedConfigs pr cb cg cw).expansion name ∧
    cfgOkAt ty rg (expandedConfigs pr cb cg cw).shrink name ∧
    cfgOkAt ty rg (expandedConfigs pr cb cg cw).contraction name :=
  ⟨deriveConfig_ok pr _ _ _ name ty rg hl hle hint,
   deriveConfig_ok pr _ _ _ name ty rg hl hle hint,
   deriveConfig_ok pr _ _ _ name ty rg hl hle hint,
   deriveConfig_ok pr _ _ _ name ty rg hl hle hint,
   deriveConfig_ok pr _ _ _ name ty rg hl hle hint⟩

/-- Witness for C4: the one-integer-parameter space `x : int ∈ [0, 10]`
with concrete simplex configurations; the midpoint configuration is in
range and integral at `x`. -/
theorem expansion_configs_in_range_witness :
    cfgOkAt PType.int ⟨0, 10⟩
      (expandedConfigs [("x", PType.int, ⟨0, 10⟩)]
        (fun _ => 1) (fun _ => 4) (fun _ => 10)).midpoint "x" :=
  (expansion_configs_in_range [("x", PType.int, ⟨0, 10⟩)]
      (fun _ => 1) (fun _ => 4) (fun _ => 10) "x" PType.int ⟨0, 10⟩
      (by decide) (by decide)
      (fun _ => ⟨⟨0, by decide⟩, ⟨10, by decide⟩⟩)).1

/-- C9: any declared parameter whose inclusive range has zero width makes
`_models_converged` raise `ZeroDivisionError` in its normalization loop,
propagating the numeric exception (the range is not rejected earlier). -/
theorem zero_width_range_division_error (pr : ParamsRange) (cs : ℚ)
    (cb cg cw : Config) (name : String) (ty : PType) (rg : PRange)
    (hmem : (name, ty, rg) ∈ pr) (hzw : rg.hi = rg.lo) :
    modelsConverged pr cs cb cg cw = Except.error "ZeroDivisionError" := by
  have hz : hasZeroWidth pr = true := by
    unfold hasZeroWidth
    rw [List.any_eq_true]
    exact ⟨(name, ty, rg), hmem, by simp [hzw]⟩
  simp [modelsConverged, hz]

/-- Witness for C9: a one-parameter space with the zero-width range
`[1, 1]` raises `ZeroDivisionError`. -/
theorem zero_width_range_division_error_witness :
    modelsConverged [("x", PType.float, ⟨1, 1⟩)] 1 cfgHalf cfgHalf cfgHalf =
      Except.error "ZeroDivisionError" :=
  zero_width_range_division_error [("x", PType.float, ⟨1, 1⟩)] 1
    cfgHalf cfgHalf cfgHalf "x" PType.float ⟨1, 1⟩ (by simp) rfl

/-- Each squared pairwise distance is nonnegative. -/
lemma distSq_nonneg (pr : ParamsRange) (c1 c2 : Config) : 0 ≤ distSq pr c1 c2 := by
  unfold distSq
  apply List.sum_nonneg
  intro x hx
  simp only [List.mem_map] at hx
  obtain ⟨p, _, rfl⟩ := hx
  positivity

/-- The maximal squared pairwise distance is nonnegative. -/
lemma maxDistSq_nonneg (pr : ParamsRange) (cb cg cw : Config) :
    0 ≤ maxDistSq pr cb cg cw :=
  le_trans (distSq_nonneg pr cg cw) (le_max_right _ _)

/-- C5: without zero-width ranges, `_models_converged` declares convergence
exactly when `max_dist * sqrt(ndim / (2*(ndim+1))) < convergence_sphere`,
where `max_dist` is the maximum pairwise Euclidean distance between the
normalized configurations and `ndim` the number of parameters; in
particular, for the 2-parameter scenario with normalized points
`(0.50, 0.50)`, `(0.51, 0.49)`, `(0.49, 0.51)` convergence is declared with
`convergence_sphere = 0.02` and not with `convergence_sphere = 0.01`. -/
theorem models_converged_characterization (pr : ParamsRange) (cs : ℚ)
    (cb cg cw : Config) (hzw : hasZeroWidth pr = false) :
    (modelsConverged pr cs cb cg cw = Except.ok true ↔
      Real.sqrt ((maxDistSq pr cb cg cw : ℚ) : ℝ) *
        Real.sqrt ((pr.length : ℝ) / (2 * ((pr.length : ℝ) + 1))) < ((cs : ℚ) : ℝ))
  ∧ modelsConverged prUnit2 (1/50) cfgHalf cfgPt2 cfgPt3 = Except.ok true
  ∧ modelsConverged prUnit2 (1/100) cfgHalf cfgPt2 cfgPt3 = Except.ok false := by
  refine ⟨?_, ?_, ?_⟩
  case refine_2 =>
    norm_num [modelsConverged, hasZeroWidth, prUnit2, maxDistSq, distSq,
      normVal, cfgHalf, cfgPt2, cfgPt3, show ¬(("b" : String) = "a") from by decide]
  case refine_3 =>
    norm_num [modelsConverged, hasZeroWidth, prUnit2, maxDistSq, distSq,
      normVal, cfgHalf, cfgPt2, cfgPt3, show ¬(("b" : String) = "a") from by decide]
  have hm : (0 : ℝ) ≤ ((maxDistSq pr cb cg cw : ℚ) : ℝ) := by
    exact_mod_cast maxDistSq_nonneg pr cb cg cw
  have hD : (0 : ℝ) < 2 * ((pr.length : ℝ) + 1) := by positivity
  have hmain : modelsConverged pr cs cb cg cw = Except.ok true ↔
      (0 < cs ∧ maxDistSq pr cb cg cw * (pr.length : ℚ) <
        cs ^ 2 * (2 * ((pr.length : ℚ) + 1))) := by
    simp [modelsConverged, hzw, decide_eq_true_eq]
  rw [hmain, ← Real.sqrt_mul hm]
  constructor
  · rintro ⟨hcs, hlt⟩
    have hcs' : (0 : ℝ) < ((cs : ℚ) : ℝ) := by exact_mod_cast hcs
    rw [Real.sqrt_lt' hcs']
    rw [mul_div_assoc']
    rw [div_lt_iff₀ hD]
    exact_mod_cast hlt
  · intro hlt
    have hcs' : (0 : ℝ) < ((cs : ℚ) : ℝ) :=
      lt_of_le_of_lt (Real.sqrt_nonneg _) hlt
    have hcs : 0 < cs := by exact_mod_cast hcs'
    refine ⟨hcs, ?_⟩
    rw [Real.sqrt_lt' hcs'] at hlt
    rw [mul_div_assoc'] at hlt
    rw [div_lt_iff₀ hD] at hlt
    exact_mod_cast hlt

/-- Witness for C5: the convergence scenario itself; the unit square has no
zero-width range and the square-root characterization holds for it with
`convergence_sphere = 0.02` alongside the two concrete scenario outcomes. -/
theorem models_converged_characterization_witness :
    (modelsConverged prUnit2 (1/50) cfgHalf cfgPt2 cfgPt3 = Except.ok true ↔
      Real.sqrt ((maxDistSq prUnit2 cfgHalf cfgPt2 cfgPt3 : ℚ) : ℝ) *
        Real.sqrt ((prUnit2.length : ℝ) / (2 * ((prUnit2.length : ℝ) + 1))) <
          (((1/50 : ℚ) : ℝ))) ∧
    modelsConverged prUnit2 (1/50) cfgHalf cfgPt2 cfgPt3 = Except.ok true ∧
    modelsConverged prUnit2 (1/100) cfgHalf cfgPt2 cfgPt3 = Except.ok false :=
  models_converged_characterization prUnit2 (1/50) cfgHalf cfgPt2 cfgPt3 rfl

/-- C8: in the converged state, a `learn_one` call with a drift signal
clears the `converged` flag, replaces the simplex with a freshly created
one whose good vertex holds the pre-drift frozen best model's configuration
(under a warm start) with a fresh model and metric, clears the frozen best
model and does not apply the sample's learning update to it; without a
drift signal it only updates the frozen best model and leaves the state
converged with the simplex unchanged. -/
theorem converged_drift_transition (P : Params) (env : CallEnv)
    (st : CtrlState) (bm : MModel) (hc : st.converged = true)
    (hb : st.best = some bm) (hw : P.warm = true) :
    (env.drift = true →
      learnOne P env st = Except.ok
        { st with
            n := st.n + 1
            converged := false
            simplex := (createSimplex P bm.cfg st.rng).1
            best := none
            rng := (createSimplex P bm.cfg st.rng).2 } ∧
      (createSimplex P bm.cfg st.rng).1.good.model.cfg = bm.cfg ∧
      (createSimplex P bm.cfg st.rng).1.good.model.fit = 0 ∧
      (createSimplex P bm.cfg st.rng).1.good.metric = P.m0)
  ∧ (env.drift = false →
      learnOne P env st = Except.ok
        { st with n := st.n + 1, best := some (env.learnBest bm) }) := by
  constructor
  · intro hd
    refine ⟨?_, ?_, rfl, rfl⟩
    · simp [learnOne, hc, learnConverged, hb, hd]
    · simp [createSimplex, hw]
  · intro hd
    simp [learnOne, hc, learnConverged, hb, hd]

/-- Witness for C8: a concrete converged state hit by a drift signal; the
call leaves the converged state, re-creates the simplex and the new good
vertex keeps the pre-drift best configuration. -/
theorem converged_drift_transition_witness :
    learnOne pOvershoot envDrift stConv = Except.ok
      { stConv with
          n := stConv.n + 1
          converged := false
          simplex := (createSimplex pOvershoot mvHalf.model.cfg stConv.rng).1
          best := none
          rng := (createSimplex pOvershoot mvHalf.model.cfg stConv.rng).2 } ∧
    (createSimplex pOvershoot mvHalf.model.cfg stConv.rng).1.good.model.cfg =
      mvHalf.model.cfg :=
  ⟨((converged_drift_transition pOvershoot envDrift stConv mvHalf.model
      rfl rfl rfl).1 rfl).1,
   ((converged_drift_transition pOvershoot envDrift stConv mvHalf.model
      rfl rfl rfl).1 rfl).2.1⟩

/-- C6 (code bug): the grace-period window can never complete: with the
expanded set absent (as it always is, since its creation itself raises),
an exploring `learn_one` call raises `AttributeError` at line 234's
`_nelder_mead_expansion()` before the `n == grace_period` block is
reached.  Evaluated at `grace_period = 1` from a fresh exploring state:
after exactly one call the controller object (which survives the raise)
has its counter at 1 rather than reset to 0, no selection pass has
executed, and no expanded set was ever created. -/
theorem grace_period_window_never_completes :
    learnOne pGrace envId stFresh =
      Except.error ("AttributeError: mutate", runSurvive pGrace [envId] stFresh) ∧
    pGrace.gracePeriod = 1 ∧
    (runSurvive pGrace [envId] stFresh).n = 1 ∧
    (runSurvive pGrace [envId] stFresh).passes = 0 ∧
    (runSurvive pGrace [envId] stFresh).expanded = none ∧
    (runSurvive pGrace [envId] stFresh).converged = false :=
  ⟨rfl, rfl, rfl, rfl, rfl, rfl⟩

/-- C7 (code bug): the sample counter leaves `[0, grace_period]` while the
controller is Exploring.  Every exploring `learn_one` call increments `_n`
and then raises at `_nelder_mead_expansion` (line 234) before the
`n == grace_period` reset can run, so for a caller that catches the
exceptions the counter grows without bound: after three calls with
`grace_period = 2` the controller is still in the exploring state with
`n = 3 > grace_period`, and every one of the three calls raised. -/
theorem sample_counter_exceeds_grace_period :
    (runSurvive pOvershoot [envId, envId, envId] stFresh).converged = false ∧
    pOvershoot.gracePeriod < (runSurvive pOvershoot [envId, envId, envId] stFresh).n ∧
    (runSurvive pOvershoot [envId, envId, envId] stFresh).passes = 0 ∧
    (learnOne pOvershoot envId (runSurvive pOvershoot [envId, envId] stFresh)).isOk
      = false :=
  ⟨rfl, by decide, rfl, rfl⟩

end RiverExtra
